import Mathlib

/-!
Verification development for the error-handling module of `grpc-js-helper`
(`src/error-handling.ts`).

The module is compiled as an ES module (package.json has type module), so all
of its code runs in strict mode; this matters for the semantics of assigning a
property to a primitive value.

We shallowly embed the JavaScript values the module manipulates.  An object
carries exactly the properties the module ever reads or writes: its prototype
(identified by the name of the constructor owning that prototype, or `none`
for a null prototype as produced by Object.create(null)), and the properties
`message`, `code`, `details`, `metadata`, `stack`, `cause` and `name`.
`message` and `name` are kept as strings, which is what the TypeScript types
of `Error` guarantee; `code`, `details`, `metadata`, `stack` and `cause` are
arbitrary values, since the module inspects them on `unknown` inputs.
JavaScript numbers are modelled as rationals, enough for every comparison the
module performs (no NaN behaviour is relied on by any inspected code path).

Fallible operations return `JsResult`: either a normal value, or a thrown
JavaScript value (exceptions thrown by the module are always `TypeError`
objects).
-/

/-- The string literals used by the source, bound as named constants. -/
def typeofNumber : String := "number"

def typeofString : String := "string"

def typeofObject : String := "object"

def protoNameError : String := "Error"

def protoNameTypeError : String := "TypeError"

def protoNameServiceError : String := "ServiceError"

def ctorNameMetadata : String := "Metadata"

def nameServiceError : String := "ServiceError"

def transientMarker : String := "Received RST_STREAM with code 2"

def msgNotAServiceError : String := "not a ServiceError"

def msgReadPropertiesOfNull : String := "Cannot read properties of null"

def msgReadPropertiesOfUndefined : String := "Cannot read properties of undefined"

def msgSetPrototypeOfNullOrUndefined : String := "Object.setPrototypeOf called on null or undefined"

def msgCreatePropertyOnPrimitive : String := "Cannot create property on a primitive value"

def emptyStr : String := ""

def sampleDetailsText : String := "transport failure"

/-- A JavaScript value, restricted to the shape the module manipulates.
`object proto message code details metadata stack cause name`: `proto` names
the constructor whose prototype object is the value's prototype (`none` for a
null prototype). -/
inductive JSValue where
  | undefined : JSValue
  | null : JSValue
  | boolean (b : Bool) : JSValue
  | number (q : ℚ) : JSValue
  | str (s : String) : JSValue
  | object (proto : Option String) (message : String) (code : JSValue)
      (details : JSValue) (metadata : JSValue) (stack : JSValue)
      (cause : JSValue) (name : String) : JSValue
deriving DecidableEq

/-- Result of running a piece of the module: a value, or a thrown value. -/
inductive JsResult (α : Type) where
  | ok (v : α) : JsResult α
  | thrown (e : JSValue) : JsResult α
deriving DecidableEq

/-- A freshly constructed `TypeError` (its stack string is
environment-dependent and modelled as undefined; no inspected code path reads
it). -/
def mkTypeError (msg : String) : JSValue :=
  .object (some protoNameTypeError) msg .undefined .undefined .undefined
    .undefined .undefined protoNameTypeError

/-- Whether a prototype (identified by its constructor's name) sits below
`Error.prototype`, i.e. whether `v instanceof Error` holds for a value with
that prototype.  The prototypes occurring in this development are those of
`Error`, `TypeError`, the module's `ServiceError` (which extends `Error`),
`Object`, and the Metadata container class of the RPC library (a plain class,
not an Error). -/
def protoIsErrorInstance (proto : Option String) : Bool :=
  match proto with
  | some s => s == protoNameError || s == protoNameTypeError || s == protoNameServiceError
  | none => false

/-- `typeof ServiceStatus[q] !== "undefined"`: the status enumeration of the
RPC library is a TypeScript numeric enum with members 0..16 (OK, CANCELLED,
UNKNOWN, INVALID_ARGUMENT, DEADLINE_EXCEEDED, NOT_FOUND, ALREADY_EXISTS,
PERMISSION_DENIED, RESOURCE_EXHAUSTED, FAILED_PRECONDITION, ABORTED,
OUT_OF_RANGE, UNIMPLEMENTED, INTERNAL, UNAVAILABLE, DATA_LOSS,
UNAUTHENTICATED), so its reverse mapping is defined exactly at the integers
0..16. -/
def statusEnumHasCode (q : ℚ) : Bool :=
  q.den == 1 && decide (0 ≤ q.num) && decide (q.num ≤ 16)

/-- `ServiceStatus.INTERNAL`. -/
def ServiceStatusINTERNAL : ℚ := 13

/-- Embedding of `isServiceError` (src/error-handling.ts lines 90-110).

```
if (error instanceof Error) {
  const serviceError = error as ... ;
  if (typeof serviceError.code !== "number"
      || typeof ServiceStatus[serviceError.code] === "undefined") return false;
  if (typeof serviceError.details !== "string") return false;
  if (!((typeof serviceError.metadata === "object")
        && (serviceError.metadata as object).constructor.name === "Metadata")) return false;
  return true;
}
return false;
```

Note `typeof null === "object"` in JavaScript, so when `metadata` is `null`
the first conjunct holds and the access `null.constructor` throws a
`TypeError`; likewise for a metadata object with a null prototype, where
`constructor` is `undefined` and the access `undefined.name` throws. -/
def isServiceError (error : JSValue) : JsResult Bool :=
  match error with
  | .object proto _ code details metadata _ _ _ =>
    if protoIsErrorInstance proto then
      match code with
      | .number q =>
        if !statusEnumHasCode q then .ok false
        else
          match details with
          | .str _ =>
            match metadata with
            | .null => .thrown (mkTypeError msgReadPropertiesOfNull)
            | .object mproto _ _ _ _ _ _ _ =>
              match mproto with
              | none => .thrown (mkTypeError msgReadPropertiesOfUndefined)
              | some cn => .ok (cn == ctorNameMetadata)
            | _ => .ok false
          | _ => .ok false
      | _ => .ok false
    else .ok false
  | _ => .ok false

/-- Embedding of `getServiceStatus` (src/error-handling.ts lines 117-125).

```
const serviceError = error as Partial of ServiceErrorType;
if (typeof serviceError.code === "number"
    && typeof ServiceStatus[serviceError.code] !== "undefined") return serviceError.code;
return undefined;
```

Reading the `code` property of `null` or `undefined` throws a `TypeError`;
on every other primitive the property read yields `undefined`. -/
def getServiceStatus (error : JSValue) : JsResult (Option ℚ) :=
  match error with
  | .undefined => .thrown (mkTypeError msgReadPropertiesOfUndefined)
  | .null => .thrown (mkTypeError msgReadPropertiesOfNull)
  | .object _ _ code _ _ _ _ _ =>
    match code with
    | .number q => if statusEnumHasCode q then .ok (some q) else .ok none
    | _ => .ok none
  | _ => .ok none

namespace ServiceError

/-- Embedding of `ServiceError.fromError` (src/error-handling.ts lines 14-25).

```
if (!isServiceError(error)) throw new TypeError("not a ServiceError");
const serviceError = new ServiceError(error.message, error.code, error.details, error.metadata);
serviceError.cause = error.cause;
serviceError.stack = error.stack;
return serviceError;
```

If `isServiceError` itself throws, that exception propagates.  The
`ServiceError` constructor calls `super(message)` and sets `name` to
`"ServiceError"`; the fresh instance's prototype is `ServiceError.prototype`.
Its `stack` and `cause` are then overwritten with the input's. -/
def fromError (error : JSValue) : JsResult JSValue :=
  match isServiceError error, error with
  | .thrown t, _ => .thrown t
  | .ok true, .object _ message code details metadata stack cause _ =>
    .ok (.object (some protoNameServiceError) message code details metadata
      stack cause nameServiceError)
  | _, _ => .thrown (mkTypeError msgNotAServiceError)

end ServiceError

/-- The rejection handler shared by both paths of `serviceCall`
(src/error-handling.ts lines 47-53 and 64-69):

```
(error: unknown) => {
  Object.setPrototypeOf(error, ServiceError.prototype);
  (error as ServiceError).name = "ServiceError";
  throw error;
}
```

For an object, `Object.setPrototypeOf` mutates its prototype in place and the
assignment creates/overwrites its own `name` property; the handler then
rethrows the same object.  For `null` or `undefined`, `Object.setPrototypeOf`
itself throws a `TypeError`.  For any other primitive, `Object.setPrototypeOf`
returns the value unchanged, but the `name` assignment throws a `TypeError`
because the module runs in strict mode.  In every case the value thrown out
of the handler is the result below. -/
def retypeError (error : JSValue) : JSValue :=
  match error with
  | .object _ message code details metadata stack cause _ =>
    .object (some protoNameServiceError) message code details metadata stack
      cause nameServiceError
  | .null => mkTypeError msgSetPrototypeOfNullOrUndefined
  | .undefined => mkTypeError msgSetPrototypeOfNullOrUndefined
  | _ => mkTypeError msgCreatePropertyOnPrimitive

/-- `s.startsWith(p)` of JavaScript: whether the characters of `p` occur at
the start of `s`. -/
def jsStartsWith (s p : String) : Bool :=
  s.data.take p.data.length == p.data

/-- The retry condition tested after `isServiceError(error)` returned true
(src/error-handling.ts line 74):
`error.code === ServiceStatus.INTERNAL && error.details.startsWith("Received RST_STREAM with code 2")`.
It is only ever evaluated on values whose `details` is a string (guaranteed
by the preceding predicate); on other shapes it is given the value false. -/
def isTransientRST (error : JSValue) : Bool :=
  match error with
  | .object _ _ code details _ _ _ _ =>
    code == .number ServiceStatusINTERNAL &&
      (match details with
       | .str s => jsStartsWith s transientMarker
       | _ => false)
  | _ => false

/-- One run of the wrapped operation: the promise either fulfills with a
value or rejects with a JavaScript value. -/
inductive FnResult (α : Type) where
  | resolve (v : α) : FnResult α
  | reject (e : JSValue) : FnResult α

/-- The options object of `serviceCall`; the only property the module reads
is `internalErrorRetryMaxCount` (value `undefined` when the property, or the
whole options argument, is omitted). -/
structure ServiceCallOptions where
  internalErrorRetryMaxCount : JSValue

/-- The retry maximum actually used by the factory path
(src/error-handling.ts lines 55-59):

```
let internalErrorRetryMaxCount = 2;
if (typeof options.internalErrorRetryMaxCount === "number"
    && options.internalErrorRetryMaxCount >= 0) {
  internalErrorRetryMaxCount = options.internalErrorRetryMaxCount;
}
```
-/
def effectiveRetryMaxCount (options : ServiceCallOptions) : ℚ :=
  match options.internalErrorRetryMaxCount with
  | .number q => if 0 ≤ q then q else 2
  | _ => 2

/-- The retry loop of the factory path (src/error-handling.ts lines 61-81),
together with the number of invocations of `fn` it performs:

```
for (let attempt = 0;; attempt++) {
  try {
    return await fn().catch(handler);            -- handler = retypeError
  } catch (error) {
    if (attempt < internalErrorRetryMaxCount) {
      if (isServiceError(error)) {
        if (error.code === ServiceStatus.INTERNAL
            && error.details.startsWith("Received RST_STREAM with code 2")) {
          continue;
        }
      }
    }
    throw error;
  }
}
```

The value caught by the `catch` is always `retypeError` of the rejection
value (the handler rethrows the mutated object, or its own `TypeError`).  If
`isServiceError` throws inside the `catch` block, that exception propagates
out of `serviceCall`.  `fn i` is the outcome of the (i+1)-th invocation of
the factory. -/
def serviceCallLoop (fn : ℕ → FnResult α) (maxCount : ℚ) (attempt : ℕ) :
    JsResult α × ℕ :=
  match fn attempt with
  | .resolve v => (.ok v, 1)
  | .reject e =>
    let error := retypeError e
    if h : (attempt : ℚ) < maxCount then
      match isServiceError error with
      | .thrown t => (.thrown t, 1)
      | .ok passes =>
        if passes && isTransientRST error then
          let rest := serviceCallLoop fn maxCount (attempt + 1)
          (rest.1, rest.2 + 1)
        else (.thrown error, 1)
    else (.thrown error, 1)
termination_by (⌈maxCount⌉.toNat - attempt)
decreasing_by
  have h1 : (attempt : ℤ) < ⌈maxCount⌉ := by
    have := Int.le_ceil maxCount
    exact_mod_cast lt_of_lt_of_le h this
  have h2 : attempt < ⌈maxCount⌉.toNat := by omega
  exact Nat.sub_succ_lt_self _ _ h2

/-- The argument of `serviceCall`: an already-started promise, or a
zero-argument factory. -/
inductive ServiceCallInput (α : Type) where
  | promise (p : FnResult α) : ServiceCallInput α
  | factory (fn : ℕ → FnResult α) : ServiceCallInput α

/-- Embedding of `serviceCall` (src/error-handling.ts lines 45-84).  The
promise path awaits the promise with the rejection handler attached; the
factory path runs the retry loop. -/
def serviceCall (fn : ServiceCallInput α) (options : ServiceCallOptions) :
    JsResult α :=
  match fn with
  | .promise p =>
    match p with
    | .resolve v => .ok v
    | .reject e => .thrown (retypeError e)
  | .factory f => (serviceCallLoop f (effectiveRetryMaxCount options) 0).1

/-- The number of times the factory path invokes the factory. -/
def serviceCallFactoryCalls (fn : ℕ → FnResult α)
    (options : ServiceCallOptions) : ℕ :=
  (serviceCallLoop fn (effectiveRetryMaxCount options) 0).2

def protoNameObject : String := "Object"

/-- Reading the property `code` of an arbitrary value: throws on `null` and
`undefined`, yields the property on objects, and yields `undefined` on the
remaining primitives (which box to wrapper objects carrying no such
property). -/
def jsGetCode : JSValue → JsResult JSValue
  | .null => .thrown (mkTypeError msgReadPropertiesOfNull)
  | .undefined => .thrown (mkTypeError msgReadPropertiesOfUndefined)
  | .object _ _ code _ _ _ _ _ => .ok code
  | _ => .ok .undefined

/-- Spec-side shape predicate, following the words of 4.1 / C6: an Error
object whose `code` is a number belonging to the status enumeration, whose
`details` is a string, and whose `metadata` is an object whose constructor
tag is the Metadata container's. -/
def conformsToServiceErrorShape (v : JSValue) : Bool :=
  match v with
  | .object proto _ code details metadata _ _ _ =>
    protoIsErrorInstance proto &&
    (match code with | .number q => statusEnumHasCode q | _ => false) &&
    (match details with | .str _ => true | _ => false) &&
    (match metadata with
     | .object mproto _ _ _ _ _ _ _ =>
       match mproto with
       | some cn => cn == ctorNameMetadata
       | none => false
     | _ => false)
  | _ => false

/-- Spec-side predicate for the inputs on which the metadata check of
`isServiceError` dereferences `null`: an Error whose `code` and `details`
pass, but whose `metadata` is `null` (note `typeof null` is the string
"object" in JavaScript). -/
def metadataTrapNull (v : JSValue) : Bool :=
  match v with
  | .object proto _ code details metadata _ _ _ =>
    protoIsErrorInstance proto &&
    (match code with | .number q => statusEnumHasCode q | _ => false) &&
    (match details with | .str _ => true | _ => false) &&
    (match metadata with | .null => true | _ => false)
  | _ => false

/-- Spec-side predicate for the inputs on which the metadata check of
`isServiceError` dereferences `undefined`: an Error whose `code` and
`details` pass, but whose `metadata` is an object with a null prototype, so
its `constructor` is `undefined`. -/
def metadataTrapNoCtor (v : JSValue) : Bool :=
  match v with
  | .object proto _ code details metadata _ _ _ =>
    protoIsErrorInstance proto &&
    (match code with | .number q => statusEnumHasCode q | _ => false) &&
    (match details with | .str _ => true | _ => false) &&
    (match metadata with
     | .object mproto _ _ _ _ _ _ _ =>
       match mproto with
       | none => true
       | some _ => false
     | _ => false)
  | _ => false

/-- A Metadata container instance of the RPC library. -/
def sampleMetadata : JSValue :=
  .object (some ctorNameMetadata) emptyStr .undefined .undefined .undefined
    .undefined .undefined emptyStr

/-- A conforming service error carrying the transient stream-reset
signature: code INTERNAL (13) and details beginning with the marker. -/
def sampleTransientErr : JSValue :=
  .object (some protoNameError) "13 INTERNAL" (.number 13)
    (.str transientMarker) sampleMetadata .undefined .undefined protoNameError

/-- A conforming service error with code UNAVAILABLE (14): not retryable. -/
def sampleUnavailableErr : JSValue :=
  .object (some protoNameError) "14 UNAVAILABLE" (.number 14)
    (.str sampleDetailsText) sampleMetadata .undefined .undefined protoNameError

/-- A plain object (prototype `Object.prototype`, hence not an Error and not
a service error) that carries the transient signature fields. -/
def plainTransientObj : JSValue :=
  .object (some protoNameObject) emptyStr (.number 13) (.str transientMarker)
    sampleMetadata .undefined .undefined emptyStr

/-- An Error that does not conform to the service-error shape (its `code` is
undefined). -/
def nonConformingErr : JSValue :=
  .object (some protoNameError) "boom" .undefined .undefined .undefined
    .undefined .undefined protoNameError

/-- An Error with a valid code and string details whose `metadata` is
`null`. -/
def metadataNullErr : JSValue :=
  .object (some protoNameError) "13 INTERNAL" (.number 13) (.str sampleDetailsText)
    .null .undefined .undefined protoNameError

/-! ### Helper lemmas -/

lemma natCast_lt_rat_iff (a : ℕ) (q : ℚ) : ((a : ℚ) < q) ↔ a < ⌈q⌉.toNat := by
  have h1 : ((a : ℚ) < q) ↔ ((a : ℤ) < ⌈q⌉) := by
    rw [Int.lt_ceil, Int.cast_natCast]
  rw [h1]
  omega

lemma isServiceError_object_congr (p1 p2 : Option String)
    (h1 : protoIsErrorInstance p1 = true) (h2 : protoIsErrorInstance p2 = true)
    (m1 m2 : String) (c d md st1 cs1 st2 cs2 : JSValue) (n1 n2 : String) :
    isServiceError (.object p1 m1 c d md st1 cs1 n1) =
      isServiceError (.object p2 m2 c d md st2 cs2 n2) := by
  simp only [isServiceError, h1, h2, if_true]

/-- The rejection handler's mutation preserves conformance and the transient
signature: it only moves the prototype (to another Error-instance prototype)
and the `name`. -/
lemma retypeError_ok_true (e : JSValue) (h : isServiceError e = .ok true) :
    isServiceError (retypeError e) = .ok true ∧
      isTransientRST (retypeError e) = isTransientRST e := by
  cases e with
  | object proto m c d md st cs nm =>
    have hp : protoIsErrorInstance proto = true := by
      by_contra hne
      simp only [isServiceError, hne] at h
      simp at h
    have hps : protoIsErrorInstance (some protoNameServiceError) = true := by decide
    constructor
    · rw [retypeError, isServiceError_object_congr (some protoNameServiceError) proto hps hp]
      exact h
    · rw [retypeError]
      simp only [isTransientRST]
  | undefined => simp [isServiceError] at h
  | null => simp [isServiceError] at h
  | boolean b => simp [isServiceError] at h
  | number q => simp [isServiceError] at h
  | str s => simp [isServiceError] at h

/-- Evaluation of the retry loop when every invocation rejects with a value
whose re-typed form passes the predicate and carries the transient
signature: the loop keeps retrying until the attempt counter reaches the
ceiling of the configured maximum, then rethrows the last re-typed error. -/
lemma serviceCallLoop_allTransient {α : Type} (fn : ℕ → FnResult α) (e : ℕ → JSValue)
    (hrej : ∀ i, fn i = .reject (e i))
    (hsvc : ∀ i, isServiceError (retypeError (e i)) = .ok true)
    (htr : ∀ i, isTransientRST (retypeError (e i)) = true)
    (maxCount : ℚ) :
    ∀ d a, ⌈maxCount⌉.toNat - a = d →
    serviceCallLoop fn maxCount a =
      (.thrown (retypeError (e (Nat.max a ⌈maxCount⌉.toNat))),
       Nat.max a ⌈maxCount⌉.toNat - a + 1) := by
  intro d
  induction d with
  | zero =>
    intro a ha
    have hge : ⌈maxCount⌉.toNat ≤ a := by omega
    have hlt : ¬ ((a : ℚ) < maxCount) := by
      rw [natCast_lt_rat_iff]; omega
    rw [serviceCallLoop, hrej a]
    simp only [hlt, dite_false]
    have hmax : Nat.max a ⌈maxCount⌉.toNat = a := Nat.max_eq_left hge
    rw [hmax]
    simp
  | succ n ih =>
    intro a ha
    have hlt : a < ⌈maxCount⌉.toNat := by omega
    have hq : (a : ℚ) < maxCount := (natCast_lt_rat_iff a maxCount).mpr hlt
    rw [serviceCallLoop, hrej a]
    simp only [hq, dite_true, hsvc a, htr a, Bool.and_self, if_true]
    rw [ih (a + 1) (by omega)]
    have hmax1 : Nat.max (a + 1) ⌈maxCount⌉.toNat = ⌈maxCount⌉.toNat :=
      Nat.max_eq_right (by omega)
    have hmax2 : Nat.max a ⌈maxCount⌉.toNat = ⌈maxCount⌉.toNat :=
      Nat.max_eq_right (by omega)
    rw [hmax1, hmax2]
    simp only [Prod.mk.injEq]
    exact ⟨trivial, by omega⟩

/-- The factory path under an always-transiently-failing factory: the number
of invocations and the propagated error, for an arbitrary options object. -/
lemma serviceCall_allTransient_eval {α : Type} (fn : ℕ → FnResult α)
    (e : ℕ → JSValue)
    (hrej : ∀ i, fn i = .reject (e i))
    (hsvc : ∀ i, isServiceError (retypeError (e i)) = .ok true)
    (htr : ∀ i, isTransientRST (retypeError (e i)) = true)
    (options : ServiceCallOptions) :
    serviceCallFactoryCalls fn options =
        ⌈effectiveRetryMaxCount options⌉.toNat + 1 ∧
      serviceCall (.factory fn) options =
        .thrown (retypeError (e ⌈effectiveRetryMaxCount options⌉.toNat)) := by
  have hloop := serviceCallLoop_allTransient fn e hrej hsvc htr
    (effectiveRetryMaxCount options) (⌈effectiveRetryMaxCount options⌉.toNat - 0) 0 rfl
  have hmax : Nat.max 0 ⌈effectiveRetryMaxCount options⌉.toNat =
      ⌈effectiveRetryMaxCount options⌉.toNat := Nat.max_eq_right (Nat.zero_le _)
  rw [hmax] at hloop
  constructor
  · rw [serviceCallFactoryCalls, hloop]
    simp
  · rw [serviceCall, hloop]


/-- Complete characterization of `isServiceError`: true on conforming
shapes, a thrown `TypeError` on the two metadata traps, false otherwise. -/
lemma isServiceError_eq (v : JSValue) :
    isServiceError v =
      (if conformsToServiceErrorShape v then .ok true
       else if metadataTrapNull v then .thrown (mkTypeError msgReadPropertiesOfNull)
       else if metadataTrapNoCtor v then .thrown (mkTypeError msgReadPropertiesOfUndefined)
       else .ok false) := by
  rcases v with _ | _ | b | q | s | ⟨proto, m, c, d, md, st, cs, nm⟩ <;>
    simp only [isServiceError, conformsToServiceErrorShape, metadataTrapNull,
      metadataTrapNoCtor, if_false, Bool.false_and, Bool.and_false]
  · rfl
  · rfl
  · rfl
  · rfl
  · rfl
  · by_cases hp : protoIsErrorInstance proto <;>
      simp only [hp, if_true, if_false, Bool.true_and, Bool.false_and]
    · rcases c with _ | _ | cb | cq | cstr | ⟨p2, m2, c2, d2, md2, st2, cs2, n2⟩ <;>
        simp only [Bool.false_and]
      · rfl
      · rfl
      · rfl
      · by_cases hq : statusEnumHasCode cq <;>
          simp only [hq, Bool.not_true, Bool.not_false, Bool.true_and,
            Bool.false_and, if_true, if_false]
        · rcases d with _ | _ | db | dq | dstr | ⟨p3, m3, c3, d3, md3, st3, cs3, n3⟩ <;>
            simp only [Bool.false_and, Bool.and_false, Bool.true_and]
          · rfl
          · rfl
          · rfl
          · rfl
          · rcases md with _ | _ | mb | mq | mstr | ⟨p4, m4, c4, d4, md4, st4, cs4, n4⟩
            · rfl
            · rfl
            · rfl
            · rfl
            · rfl
            · rcases p4 with _ | cn
              · rfl
              · by_cases hcn : cn == ctorNameMetadata <;> simp [hcn]
          · rfl
        · simp
      · rfl
      · rfl
    · rfl

/-- One step of the retry loop when the first rejection is not retried:
either the retry budget is exhausted at once, or the (re-typed) caught error
fails the retry condition; in the latter case the predicate may itself throw
inside the catch block, and that exception is what propagates. -/
lemma serviceCallLoop_noRetry_step {α : Type} (fn : ℕ → FnResult α)
    (maxCount : ℚ) (e : JSValue)
    (hrej : fn 0 = .reject e)
    (hnr : ¬ (isServiceError (retypeError e) = .ok true ∧
        isTransientRST (retypeError e) = true)) :
    serviceCallLoop fn maxCount 0 =
      (.thrown (if (0 : ℚ) < maxCount then
          (match isServiceError (retypeError e) with
           | .thrown t => t
           | .ok _ => retypeError e)
        else retypeError e), 1) := by
  rw [serviceCallLoop, hrej]
  by_cases hlt : (0 : ℚ) < maxCount
  · simp only [Nat.cast_zero, hlt, dite_true, if_true]
    rcases hsv : isServiceError (retypeError e) with b | t
    · have hb : (b && isTransientRST (retypeError e)) = false := by
        rcases b with _ | _
        · simp
        · simp only [Bool.true_and]
          by_contra hc
          exact hnr ⟨hsv, by simpa using hc⟩
      simp [hb]
    · rfl
  · simp only [Nat.cast_zero, hlt, dite_false, if_false]

lemma ceil_two_toNat : (⌈(2 : ℚ)⌉).toNat = 2 := by
  norm_num
  decide

/-! ### Claims -/

/-- C1: for every factory whose every invocation rejects with a service
error (a value passing `isServiceError`) whose code is INTERNAL and whose
details begin with the transient marker, and every configured
`internalErrorRetryMaxCount` n, `serviceCall` invokes the factory exactly
n + 1 times (the initial call plus n retries) and then propagates the final
(re-typed) error. -/
theorem serviceCall_transient_retries_to_max {α : Type} (fn : ℕ → FnResult α)
    (e : ℕ → JSValue) (n : ℕ)
    (hrej : ∀ i, fn i = .reject (e i))
    (hsvc : ∀ i, isServiceError (e i) = .ok true)
    (htr : ∀ i, isTransientRST (e i) = true) :
    serviceCallFactoryCalls fn ⟨.number (n : ℚ)⟩ = n + 1 ∧
      serviceCall (.factory fn) ⟨.number (n : ℚ)⟩ = .thrown (retypeError (e n)) := by
  have hmax : effectiveRetryMaxCount ⟨.number (n : ℚ)⟩ = (n : ℚ) := by
    simp [effectiveRetryMaxCount]
  have heval := serviceCall_allTransient_eval fn e hrej
    (fun i => (retypeError_ok_true (e i) (hsvc i)).1)
    (fun i => ((retypeError_ok_true (e i) (hsvc i)).2).trans (htr i))
    ⟨.number (n : ℚ)⟩
  rw [hmax] at heval
  have hN : (⌈(n : ℚ)⌉).toNat = n := by
    rw [Int.ceil_natCast]
    omega
  rw [hN] at heval
  exact heval

set_option maxRecDepth 10000 in
theorem serviceCall_transient_retries_to_max_witness :
    serviceCallFactoryCalls
        (fun _ => (FnResult.reject sampleTransientErr : FnResult Unit))
        ⟨.number ((1 : ℕ) : ℚ)⟩ = 2 ∧
      serviceCall
        (.factory (fun _ => (FnResult.reject sampleTransientErr : FnResult Unit)))
        ⟨.number ((1 : ℕ) : ℚ)⟩ = .thrown (retypeError sampleTransientErr) :=
  serviceCall_transient_retries_to_max
    (fun _ => (FnResult.reject sampleTransientErr : FnResult Unit))
    (fun _ => sampleTransientErr) 1 (fun _ => rfl)
    (fun _ => (by decide : isServiceError sampleTransientErr = .ok true))
    (fun _ => (by decide : isTransientRST sampleTransientErr = true))

/-- C3: when the options argument is omitted or does not specify
`internalErrorRetryMaxCount` (modelled as the property being `undefined`),
the retry maximum used is 2, so a factory that always fails with the
retryable error is invoked 3 times in total. -/
theorem serviceCall_default_retry_max {α : Type} (fn : ℕ → FnResult α)
    (e : ℕ → JSValue)
    (hrej : ∀ i, fn i = .reject (e i))
    (hsvc : ∀ i, isServiceError (e i) = .ok true)
    (htr : ∀ i, isTransientRST (e i) = true) :
    effectiveRetryMaxCount ⟨.undefined⟩ = 2 ∧
      serviceCallFactoryCalls fn ⟨.undefined⟩ = 3 ∧
      serviceCall (.factory fn) ⟨.undefined⟩ = .thrown (retypeError (e 2)) := by
  have hmax : effectiveRetryMaxCount ⟨.undefined⟩ = 2 := rfl
  have heval := serviceCall_allTransient_eval fn e hrej
    (fun i => (retypeError_ok_true (e i) (hsvc i)).1)
    (fun i => ((retypeError_ok_true (e i) (hsvc i)).2).trans (htr i))
    ⟨.undefined⟩
  rw [hmax, ceil_two_toNat] at heval
  exact ⟨hmax, heval.1, heval.2⟩

set_option maxRecDepth 10000 in
theorem serviceCall_default_retry_max_witness :
    effectiveRetryMaxCount ⟨.undefined⟩ = 2 ∧
      serviceCallFactoryCalls
        (fun _ => (FnResult.reject sampleTransientErr : FnResult Unit))
        ⟨.undefined⟩ = 3 ∧
      serviceCall
        (.factory (fun _ => (FnResult.reject sampleTransientErr : FnResult Unit)))
        ⟨.undefined⟩ = .thrown (retypeError sampleTransientErr) :=
  serviceCall_default_retry_max
    (fun _ => (FnResult.reject sampleTransientErr : FnResult Unit))
    (fun _ => sampleTransientErr) (fun _ => rfl)
    (fun _ => (by decide : isServiceError sampleTransientErr = .ok true))
    (fun _ => (by decide : isTransientRST sampleTransientErr = true))

/-- C9: a negative or non-number `internalErrorRetryMaxCount` raises no
error and is silently ignored in favour of the default 2 (3 invocations for
an always-transiently-failing factory), while any non-negative number,
integer or not, is accepted as given (the always-failing factory is then
invoked ⌈q⌉ + 1 times). -/
theorem serviceCall_options_validation {α : Type} (fn : ℕ → FnResult α)
    (e : ℕ → JSValue)
    (hrej : ∀ i, fn i = .reject (e i))
    (hsvc : ∀ i, isServiceError (e i) = .ok true)
    (htr : ∀ i, isTransientRST (e i) = true) :
    (∀ q : ℚ, q < 0 → effectiveRetryMaxCount ⟨.number q⟩ = 2 ∧
        serviceCallFactoryCalls fn ⟨.number q⟩ = 3) ∧
      (∀ x : JSValue, (∀ q : ℚ, x ≠ .number q) →
        effectiveRetryMaxCount ⟨x⟩ = 2 ∧ serviceCallFactoryCalls fn ⟨x⟩ = 3) ∧
      (∀ q : ℚ, 0 ≤ q → effectiveRetryMaxCount ⟨.number q⟩ = q ∧
        serviceCallFactoryCalls fn ⟨.number q⟩ = (⌈q⌉).toNat + 1) := by
  have hsvc' := fun i => (retypeError_ok_true (e i) (hsvc i)).1
  have htr' := fun i => ((retypeError_ok_true (e i) (hsvc i)).2).trans (htr i)
  refine ⟨?_, ?_, ?_⟩
  · intro q hq
    have hmax : effectiveRetryMaxCount ⟨.number q⟩ = 2 := by
      simp [effectiveRetryMaxCount, not_le.mpr hq]
    have heval := (serviceCall_allTransient_eval fn e hrej hsvc' htr' ⟨.number q⟩).1
    rw [hmax, ceil_two_toNat] at heval
    exact ⟨hmax, heval⟩
  · intro x hx
    have hmax : effectiveRetryMaxCount ⟨x⟩ = 2 := by
      rcases x with _ | _ | b | q | s | ⟨p, m, c, d, md, st, cs, nm⟩
      · rfl
      · rfl
      · rfl
      · exact absurd rfl (hx q)
      · rfl
      · rfl
    have heval := (serviceCall_allTransient_eval fn e hrej hsvc' htr' ⟨x⟩).1
    rw [hmax, ceil_two_toNat] at heval
    exact ⟨hmax, heval⟩
  · intro q hq
    have hmax : effectiveRetryMaxCount ⟨.number q⟩ = q := by
      simp [effectiveRetryMaxCount, hq]
    have heval := (serviceCall_allTransient_eval fn e hrej hsvc' htr' ⟨.number q⟩).1
    rw [hmax] at heval
    exact ⟨hmax, heval⟩

set_option maxRecDepth 10000 in
theorem serviceCall_options_validation_witness :
    (effectiveRetryMaxCount ⟨.number (-1 : ℚ)⟩ = 2 ∧
        serviceCallFactoryCalls
          (fun _ => (FnResult.reject sampleTransientErr : FnResult Unit))
          ⟨.number (-1 : ℚ)⟩ = 3) ∧
      (effectiveRetryMaxCount ⟨.boolean true⟩ = 2 ∧
        serviceCallFactoryCalls
          (fun _ => (FnResult.reject sampleTransientErr : FnResult Unit))
          ⟨.boolean true⟩ = 3) ∧
      (effectiveRetryMaxCount ⟨.number (1 / 2 : ℚ)⟩ = (1 / 2 : ℚ) ∧
        serviceCallFactoryCalls
          (fun _ => (FnResult.reject sampleTransientErr : FnResult Unit))
          ⟨.number (1 / 2 : ℚ)⟩ = (⌈(1 / 2 : ℚ)⌉).toNat + 1) :=
  have h := serviceCall_options_validation
    (fun _ => (FnResult.reject sampleTransientErr : FnResult Unit))
    (fun _ => sampleTransientErr) (fun _ => rfl)
    (fun _ => (by decide : isServiceError sampleTransientErr = .ok true))
    (fun _ => (by decide : isTransientRST sampleTransientErr = true))
  ⟨h.1 (-1) (by norm_num), h.2.1 (.boolean true) (fun q hq => JSValue.noConfusion hq),
    h.2.2 (1 / 2) (by norm_num)⟩

set_option maxRecDepth 10000 in
/-- C2 counterexample: a factory that always rejects with a plain object —
not an Error, so a non-service-error value by the predicate — carrying
code INTERNAL, marker-prefixed details and a Metadata-tagged metadata is
retried: with the default options the factory is invoked 3 times, not once,
because the rejection value is first mutated (its prototype becomes
`ServiceError.prototype`, making it an Error instance) and only then tested
for the retry condition. -/
theorem serviceCall_retries_nonServiceError_cex :
    isServiceError plainTransientObj = .ok false ∧
      serviceCallFactoryCalls
        (fun _ => (FnResult.reject plainTransientObj : FnResult Unit))
        ⟨.undefined⟩ = 3 := by
  constructor
  · decide
  · have heval := (serviceCall_allTransient_eval
      (fun _ => (FnResult.reject plainTransientObj : FnResult Unit))
      (fun _ => plainTransientObj) (fun _ => rfl)
      (fun _ => (by decide : isServiceError (retypeError plainTransientObj) = .ok true))
      (fun _ => (by decide : isTransientRST (retypeError plainTransientObj) = true))
      ⟨.undefined⟩).1
    rw [show effectiveRetryMaxCount ⟨.undefined⟩ = 2 from rfl, ceil_two_toNat] at heval
    exact heval

/-- C2 amended: for every factory whose first invocation rejects with a
value whose RE-TYPED form does not satisfy the retry condition (passing the
predicate with code INTERNAL and marker-prefixed details), `serviceCall`
invokes the factory exactly once and fails: with the re-typed error, except
that when the retry budget is positive and the predicate itself throws on
the re-typed error (null or constructor-less metadata), that `TypeError` is
what propagates. -/
theorem serviceCall_noRetry_amended {α : Type} (fn : ℕ → FnResult α)
    (e : JSValue) (options : ServiceCallOptions)
    (hrej : fn 0 = .reject e)
    (hnr : ¬ (isServiceError (retypeError e) = .ok true ∧
        isTransientRST (retypeError e) = true)) :
    serviceCallFactoryCalls fn options = 1 ∧
      serviceCall (.factory fn) options =
        .thrown (if (0 : ℚ) < effectiveRetryMaxCount options then
            (match isServiceError (retypeError e) with
             | .thrown t => t
             | .ok _ => retypeError e)
          else retypeError e) := by
  have hstep := serviceCallLoop_noRetry_step fn (effectiveRetryMaxCount options) e hrej hnr
  exact ⟨by rw [serviceCallFactoryCalls, hstep], by rw [serviceCall, hstep]⟩

set_option maxRecDepth 10000 in
theorem serviceCall_noRetry_amended_witness :
    serviceCallFactoryCalls
        (fun _ => (FnResult.reject sampleUnavailableErr : FnResult Unit))
        ⟨.undefined⟩ = 1 ∧
      serviceCall
        (.factory (fun _ => (FnResult.reject sampleUnavailableErr : FnResult Unit)))
        ⟨.undefined⟩ =
        .thrown (if (0 : ℚ) < effectiveRetryMaxCount ⟨.undefined⟩ then
            (match isServiceError (retypeError sampleUnavailableErr) with
             | .thrown t => t
             | .ok _ => retypeError sampleUnavailableErr)
          else retypeError sampleUnavailableErr) :=
  serviceCall_noRetry_amended
    (fun _ => (FnResult.reject sampleUnavailableErr : FnResult Unit))
    sampleUnavailableErr ⟨.undefined⟩ rfl (by decide)

set_option maxRecDepth 10000 in
/-- C4 counterexample: the promise path performs no predicate check and does
not use the 4.2 re-typing operation: a rejection value that fails the
predicate (an Error without a `code`) is still re-tagged in place as a
ServiceError and rethrown — the result is the mutated object, not a thrown
`TypeError`. -/
theorem serviceCall_promise_retags_nonconforming_cex :
    isServiceError nonConformingErr = .ok false ∧
      serviceCall (.promise (FnResult.reject nonConformingErr : FnResult Unit))
        ⟨.undefined⟩ =
        .thrown (.object (some protoNameServiceError) "boom" .undefined .undefined
          .undefined .undefined .undefined nameServiceError) ∧
      retypeError nonConformingErr ≠ mkTypeError msgNotAServiceError := by
  refine ⟨by decide, rfl, by decide⟩

/-- C4 amended: for an already-started promise, a fulfilled value passes
through unchanged, and a rejection value is mutated by the handler
(prototype set to `ServiceError.prototype`, `name` set) and rethrown with no
predicate check — a non-conforming rejection is re-tagged rather than
producing a type error (for null, undefined or primitive rejections the
mutation itself throws a `TypeError`, which is `retypeError`'s value
there). -/
theorem serviceCall_promise_amended {α : Type} :
    ∀ (options : ServiceCallOptions) (p : FnResult α),
      serviceCall (.promise p) options =
        (match p with
         | .resolve v => .ok v
         | .reject e => .thrown (retypeError e)) := by
  intro options p
  cases p <;> rfl

/-- C5 counterexample: `getServiceStatus` does throw — reading the `code`
property of `null` or `undefined` raises a `TypeError`, so it is not true
that it never throws for every input. -/
theorem getServiceStatus_throws_on_null_cex :
    getServiceStatus .null = .thrown (mkTypeError msgReadPropertiesOfNull) ∧
      getServiceStatus .undefined = .thrown (mkTypeError msgReadPropertiesOfUndefined) :=
  ⟨rfl, rfl⟩

/-- C5 amended: for every input other than `null` and `undefined`,
`getServiceStatus` never throws: it returns the value's `code` when that
code is a number belonging to the status enumeration, and the explicit
absent signal otherwise; on `null` and `undefined` it throws a
`TypeError`. -/
theorem getServiceStatus_spec :
    getServiceStatus .null = .thrown (mkTypeError msgReadPropertiesOfNull) ∧
      getServiceStatus .undefined = .thrown (mkTypeError msgReadPropertiesOfUndefined) ∧
      (∀ v : JSValue, v ≠ .null → v ≠ .undefined → ∃ r, getServiceStatus v = .ok r) ∧
      (∀ v : JSValue, ∀ q : ℚ, jsGetCode v = .ok (.number q) →
        statusEnumHasCode q = true → getServiceStatus v = .ok (some q)) ∧
      (∀ v : JSValue, v ≠ .null → v ≠ .undefined →
        (∀ q : ℚ, jsGetCode v ≠ .ok (.number q)) → getServiceStatus v = .ok none) ∧
      (∀ v : JSValue, ∀ q : ℚ, jsGetCode v = .ok (.number q) →
        statusEnumHasCode q = false → getServiceStatus v = .ok none) := by
  refine ⟨rfl, rfl, ?_, ?_, ?_, ?_⟩
  · intro v hn hu
    rcases v with _ | _ | b | q | s | ⟨p, m, c, d, md, st, cs, nm⟩
    · exact absurd rfl hu
    · exact absurd rfl hn
    · exact ⟨none, rfl⟩
    · exact ⟨none, rfl⟩
    · exact ⟨none, rfl⟩
    · rcases c with _ | _ | cb | cq | cs2 | co
      · exact ⟨none, rfl⟩
      · exact ⟨none, rfl⟩
      · exact ⟨none, rfl⟩
      · by_cases hq : statusEnumHasCode cq
        · exact ⟨some cq, by simp [getServiceStatus, hq]⟩
        · exact ⟨none, by simp [getServiceStatus, hq]⟩
      · exact ⟨none, rfl⟩
      · exact ⟨none, rfl⟩
  · intro v q hcode hq
    rcases v with _ | _ | b | q2 | s | ⟨p, m, c, d, md, st, cs, nm⟩
    · exact absurd hcode (by simp [jsGetCode])
    · exact absurd hcode (by simp [jsGetCode])
    · exact absurd hcode (by simp [jsGetCode])
    · exact absurd hcode (by simp [jsGetCode])
    · exact absurd hcode (by simp [jsGetCode])
    · have hc : c = .number q := by
        simpa [jsGetCode] using hcode
      subst hc
      simp [getServiceStatus, hq]
  · intro v hn hu hnq
    rcases v with _ | _ | b | q2 | s | ⟨p, m, c, d, md, st, cs, nm⟩
    · exact absurd rfl hu
    · exact absurd rfl hn
    · rfl
    · rfl
    · rfl
    · rcases c with _ | _ | cb | cq | cs2 | co
      · rfl
      · rfl
      · rfl
      · exact absurd rfl (hnq cq)
      · rfl
      · rfl
  · intro v q hcode hq
    rcases v with _ | _ | b | q2 | s | ⟨p, m, c, d, md, st, cs, nm⟩
    · exact absurd hcode (by simp [jsGetCode])
    · exact absurd hcode (by simp [jsGetCode])
    · exact absurd hcode (by simp [jsGetCode])
    · exact absurd hcode (by simp [jsGetCode])
    · exact absurd hcode (by simp [jsGetCode])
    · have hc : c = .number q := by
        simpa [jsGetCode] using hcode
      subst hc
      simp [getServiceStatus, hq]

set_option maxRecDepth 10000 in
theorem getServiceStatus_spec_witness :
    getServiceStatus sampleUnavailableErr = .ok (some 14) :=
  getServiceStatus_spec.2.2.2.1 sampleUnavailableErr 14 (by decide) (by decide)

set_option maxRecDepth 10000 in
/-- C6 counterexample: on an Error with a valid numeric code and string
details whose `metadata` is `null`, `isServiceError` neither returns true
nor returns false — it throws a `TypeError`, because `typeof null` is the
string "object" and the subsequent `constructor` access dereferences
`null`. -/
theorem isServiceError_throws_metadataNull_cex :
    isServiceError metadataNullErr = .thrown (mkTypeError msgReadPropertiesOfNull) ∧
      isServiceError metadataNullErr ≠ .ok false ∧
      isServiceError metadataNullErr ≠ .ok true := by
  decide

/-- C6 amended: `isServiceError` returns true exactly on Error objects whose
`code` is a number belonging to the status enumeration, whose `details` is a
string and whose `metadata` is an object with the Metadata constructor tag;
it returns false on every other input EXCEPT the two metadata traps — an
otherwise-passing Error whose metadata is `null`, or is an object with no
constructor — on which it throws a `TypeError`. -/
theorem isServiceError_characterization (v : JSValue) :
    isServiceError v =
      (if conformsToServiceErrorShape v then .ok true
       else if metadataTrapNull v then .thrown (mkTypeError msgReadPropertiesOfNull)
       else if metadataTrapNoCtor v then .thrown (mkTypeError msgReadPropertiesOfUndefined)
       else .ok false) :=
  isServiceError_eq v

/-- C7: re-typing an input that passes the predicate yields a fresh
ServiceError-prototyped error whose `message`, `code`, `details`,
`metadata`, `stack` and `cause` equal those of the input. -/
theorem fromError_preserves_fields (proto : Option String) (m : String)
    (c d md st cs : JSValue) (nm : String)
    (h : isServiceError (.object proto m c d md st cs nm) = .ok true) :
    ServiceError.fromError (.object proto m c d md st cs nm) =
      .ok (.object (some protoNameServiceError) m c d md st cs nameServiceError) := by
  unfold ServiceError.fromError
  rw [h]

set_option maxRecDepth 10000 in
theorem fromError_preserves_fields_witness :
    ServiceError.fromError sampleTransientErr =
      .ok (.object (some protoNameServiceError) "13 INTERNAL" (.number 13)
        (.str transientMarker) sampleMetadata .undefined .undefined nameServiceError) :=
  fromError_preserves_fields (some protoNameError) "13 INTERNAL" (.number 13)
    (.str transientMarker) sampleMetadata .undefined .undefined protoNameError
    (by decide)

lemma fromError_ok_of_true (v : JSValue) (h : isServiceError v = .ok true) :
    ∃ w, ServiceError.fromError v = .ok w := by
  rcases v with _ | _ | b | q | s | ⟨p, m, c, d, md, st, cs, nm⟩
  · simp [isServiceError] at h
  · simp [isServiceError] at h
  · simp [isServiceError] at h
  · simp [isServiceError] at h
  · simp [isServiceError] at h
  · refine ⟨.object (some protoNameServiceError) m c d md st cs nameServiceError, ?_⟩
    unfold ServiceError.fromError
    rw [h]

lemma fromError_thrown_of_not_true (v : JSValue) (h : isServiceError v ≠ .ok true) :
    ∃ t, ServiceError.fromError v = .thrown t ∧
      (t = mkTypeError msgNotAServiceError ∨ t = mkTypeError msgReadPropertiesOfNull ∨
        t = mkTypeError msgReadPropertiesOfUndefined) := by
  rcases hsv : isServiceError v with b | t
  · rcases b with _ | _
    · refine ⟨mkTypeError msgNotAServiceError, ?_, Or.inl rfl⟩
      unfold ServiceError.fromError
      rw [hsv]
    · exact absurd hsv h
  · have hshape : t = mkTypeError msgReadPropertiesOfNull ∨
        t = mkTypeError msgReadPropertiesOfUndefined := by
      have hc := isServiceError_eq v
      rw [hsv] at hc
      split_ifs at hc <;>
        first
          | exact JsResult.noConfusion hc
          | exact Or.inl (JsResult.thrown.inj hc)
          | exact Or.inr (JsResult.thrown.inj hc)
    refine ⟨t, ?_, Or.inr hshape⟩
    unfold ServiceError.fromError
    rw [hsv]

/-- C8: `ServiceError.fromError` throws if and only if its input does not
pass the predicate (whether the predicate returns false or itself throws),
the thrown value is always a `TypeError`, and on conforming inputs it never
throws. -/
theorem fromError_typeError_iff (v : JSValue) :
    ((∃ t, ServiceError.fromError v = .thrown t) ↔ isServiceError v ≠ .ok true) ∧
      (isServiceError v = .ok true → ∃ w, ServiceError.fromError v = .ok w) ∧
      (∀ t, ServiceError.fromError v = .thrown t →
        (t = mkTypeError msgNotAServiceError ∨ t = mkTypeError msgReadPropertiesOfNull ∨
          t = mkTypeError msgReadPropertiesOfUndefined)) := by
  refine ⟨⟨?_, ?_⟩, fromError_ok_of_true v, ?_⟩
  · rintro ⟨t, ht⟩ hc
    obtain ⟨w, hw⟩ := fromError_ok_of_true v hc
    rw [hw] at ht
    exact JsResult.noConfusion ht
  · intro hne
    obtain ⟨t, ht, _⟩ := fromError_thrown_of_not_true v hne
    exact ⟨t, ht⟩
  · intro t ht
    by_cases hc : isServiceError v = .ok true
    · obtain ⟨w, hw⟩ := fromError_ok_of_true v hc
      rw [hw] at ht
      exact JsResult.noConfusion ht
    · obtain ⟨t2, ht2, hshape⟩ := fromError_thrown_of_not_true v hc
      have : t2 = t := JsResult.thrown.inj (ht2.symm.trans ht)
      exact this ▸ hshape

theorem fromError_typeError_iff_witness :
    ∃ t, ServiceError.fromError .null = JsResult.thrown t :=
  (fromError_typeError_iff .null).1.mpr (by decide)

/-- C10: when `serviceCall` rethrows a failure whose rejection value was an
object, the thrown value carries the same `message`, `code`, `details`,
`metadata`, `stack` and `cause` as the rejection value — only the prototype
(now `ServiceError.prototype`) and the `name` property (now "ServiceError")
differ.  This holds for the promise path, and for the factory path whenever
the caught (re-typed) error is not retried; reference-level in-place
identity of the mutation is outside a value-level model. -/
theorem serviceCall_rethrow_mutation (proto : Option String) (m : String)
    (c d md st cs : JSValue) (nm : String) :
    retypeError (.object proto m c d md st cs nm) =
        .object (some protoNameServiceError) m c d md st cs nameServiceError ∧
      (∀ (α : Type) (options : ServiceCallOptions),
        serviceCall
            (.promise (FnResult.reject (.object proto m c d md st cs nm) : FnResult α))
            options =
          .thrown (.object (some protoNameServiceError) m c d md st cs nameServiceError)) ∧
      (∀ (α : Type) (options : ServiceCallOptions) (fn : ℕ → FnResult α) (b : Bool),
        fn 0 = .reject (.object proto m c d md st cs nm) →
        isServiceError
            (.object (some protoNameServiceError) m c d md st cs nameServiceError) =
          .ok b →
        (b && isTransientRST
            (.object (some protoNameServiceError) m c d md st cs nameServiceError)) =
          false →
        serviceCall (.factory fn) options =
            .thrown (.object (some protoNameServiceError) m c d md st cs nameServiceError) ∧
          serviceCallFactoryCalls fn options = 1) := by
  have hre : retypeError (.object proto m c d md st cs nm) =
      .object (some protoNameServiceError) m c d md st cs nameServiceError := rfl
  refine ⟨hre, fun α options => rfl, ?_⟩
  intro α options fn b hrej hsv hbt
  have hnr : ¬ (isServiceError (retypeError (.object proto m c d md st cs nm)) = .ok true ∧
      isTransientRST (retypeError (.object proto m c d md st cs nm)) = true) := by
    rw [hre]
    rintro ⟨h1, h2⟩
    have hb : b = true := by
      rw [hsv] at h1
      exact JsResult.ok.inj h1
    rw [hb, h2] at hbt
    simp at hbt
  have hstep := serviceCallLoop_noRetry_step fn (effectiveRetryMaxCount options)
    (.object proto m c d md st cs nm) hrej hnr
  rw [hre] at hstep
  constructor
  · rw [serviceCall, hstep, hsv]
    split_ifs <;> rfl
  · rw [serviceCallFactoryCalls, hstep]

set_option maxRecDepth 10000 in
theorem serviceCall_rethrow_mutation_witness :
    serviceCall
        (.factory (fun _ => (FnResult.reject sampleUnavailableErr : FnResult Unit)))
        ⟨.undefined⟩ =
        .thrown (.object (some protoNameServiceError) "14 UNAVAILABLE" (.number 14)
          (.str sampleDetailsText) sampleMetadata .undefined .undefined nameServiceError) ∧
      serviceCallFactoryCalls
        (fun _ => (FnResult.reject sampleUnavailableErr : FnResult Unit))
        ⟨.undefined⟩ = 1 :=
  (serviceCall_rethrow_mutation (some protoNameError) "14 UNAVAILABLE" (.number 14)
      (.str sampleDetailsText) sampleMetadata .undefined .undefined protoNameError).2.2
    Unit ⟨.undefined⟩ (fun _ => (FnResult.reject sampleUnavailableErr : FnResult Unit))
    true rfl (by decide) (by decide)
